import Mathlib

/-!
Shallow embedding of the timers repository: the TimerService class from
timer.service.ts together with the data model of timer.model.ts.

Instants are modelled as integer milliseconds on a linear timeline; the two
ReplaySubject fields of a record are modelled as the full history of values
pushed on them (a ReplaySubject with the default unbounded buffer replays
every pushed value to a new subscriber); the host scheduler is modelled as
the list of intervals currently armed by window.setInterval, each carrying
the data its callback closes over. Every operation returns the new service
state together with the list of observable effects it produced, in program
order. All functions are total: no operation of the source throws.
-/

/-- The enumerated timer identifiers (TimerId in timer.model.ts). -/
inductive TimerId
  | default
  | confirm
deriving DecidableEq, Repr

/-- Flat model of the date-fns Duration value produced by intervalToDuration.
Units above days (years, months) are omitted: they are zero for every
sub-month interval appearing in this development. A zero component models an
absent field of the JavaScript object; both are falsy, so every truth-value
test of the source agrees with the model. -/
structure Duration where
  days : Int := 0
  hours : Int := 0
  minutes : Int := 0
  seconds : Int := 0
deriving DecidableEq, Repr

/-- Model of the date-fns intervalToDuration on a linear millisecond
timeline: the signed truncating decomposition of the span from startMs to
endMs into days, hours, minutes and seconds. -/
def intervalToDuration (startMs endMs : Int) : Duration :=
  let t := endMs - startMs
  let sgn : Int := if t < 0 then -1 else 1
  let a := t.natAbs
  { days := sgn * ((a / 86400000 : Nat) : Int)
  , hours := sgn * (((a % 86400000) / 3600000 : Nat) : Int)
  , minutes := sgn * (((a % 3600000) / 60000 : Nat) : Int)
  , seconds := sgn * (((a % 60000) / 1000 : Nat) : Int) }

/-- TimerState from timer.model.ts: a timer id and its configured length in
seconds. -/
structure TimerState where
  id : TimerId
  value : Int
deriving DecidableEq, Repr

/-- TimerStateDisplay from timer.model.ts. A display of none models null; a
percent of none models undefined. Fractional quantities are rationals. -/
structure TimerStateDisplay where
  value : Int
  display : Option Duration
  percent : Option ℚ
deriving DecidableEq, Repr

/-- The defaultTimer constant from timer.model.ts: the default id with a
value of 56 minutes. -/
def defaultTimer : TimerState := { id := TimerId.default, value := 56 * 60 }

/-- TimerData from timer.model.ts: the stored state, the push histories of
the monitor and ended subjects, and the interval handle (none models both a
missing field and null). -/
structure TimerData where
  state : TimerState
  monitor : List TimerStateDisplay
  ended : List Bool
  interval : Option Nat
deriving DecidableEq, Repr

/-- An interval armed by window.setInterval: its handle and the data the
scheduled callback closes over (timer id, state, anchored start instant). -/
structure PollInterval where
  handle : Nat
  id : TimerId
  state : TimerState
  anchor : Int
deriving DecidableEq, Repr

/-- Observable side effects of the service operations, in program order. -/
inductive Event
  | monitorPush (i : TimerId) (d : TimerStateDisplay)
  | endedPush (i : TimerId) (b : Bool)
  | cancel (i : TimerId) (h : Nat)
  | schedule (i : TimerId) (h : Nat)
deriving DecidableEq, Repr

/-- The state of a TimerService instance together with the host scheduler:
the id to record map, a fresh handle counter, and the armed intervals. -/
structure Service where
  timers : TimerId → Option TimerData
  nextHandle : Nat
  scheduled : List PollInterval

/-- A service with no registered timers. -/
def emptyService : Service := { timers := fun _ => none, nextHandle := 0, scheduled := [] }

/-- Return value of start and reset: of(null) when the record is missing,
otherwise the monitor observable of the record. -/
inductive StartRet
  | ofNull
  | monitorOf (i : TimerId)
deriving DecidableEq, Repr

/-- Return value of stop: of(false) when the record is missing, otherwise
the ended observable of the record. -/
inductive StopRet
  | ofFalse
  | endedOf (i : TimerId)
deriving DecidableEq, Repr

/-- The values an immediate subscriber of the observable returned by start
receives: of(null) emits the single value null, which is not a
TimerStateDisplay; a monitor observable replays every pushed display. -/
def startEmissions (s : Service) : StartRet → List (Option TimerStateDisplay)
  | StartRet.ofNull => [none]
  | StartRet.monitorOf i => (((s.timers i).map TimerData.monitor).getD []).map some

/-- Whether the observable returned by start is already completed: of(null)
completes after its single emission; a subject observable stays open. -/
def startDone : StartRet → Bool
  | StartRet.ofNull => true
  | StartRet.monitorOf _ => false

/-- The values an immediate subscriber of the observable returned by stop
receives. -/
def stopEmissions (s : Service) : StopRet → List Bool
  | StopRet.ofFalse => [false]
  | StopRet.endedOf i => ((s.timers i).map TimerData.ended).getD []

/-- Whether the observable returned by stop is already completed. -/
def stopDone : StopRet → Bool
  | StopRet.ofFalse => true
  | StopRet.endedOf _ => false

namespace TimerService

/-- Apply f to the record currently stored for an id, when one exists. This
models a JavaScript mutation of the record object, which is always performed
through a fresh getTimer lookup or on the object that lookup returned. -/
def modifyRecord (i : TimerId) (f : TimerData → TimerData) (s : Service) : Service :=
  { s with timers := fun j => if j = i then (s.timers j).map f else s.timers j }

/-- timer.monitor.next(d): append d to the monitor history of the record
currently stored for the id. -/
def pushMonitor (i : TimerId) (d : TimerStateDisplay) (s : Service) : Service × List Event :=
  (modifyRecord i (fun t => { t with monitor := t.monitor ++ [d] }) s, [Event.monitorPush i d])

/-- timer.ended.next(b): append b to the ended history of the record. -/
def pushEnded (i : TimerId) (b : Bool) (s : Service) : Service × List Event :=
  (modifyRecord i (fun t => { t with ended := t.ended ++ [b] }) s, [Event.endedPush i b])

/-- TimerService.setTimer: store a fresh record for state.id, with two new
empty subjects and no interval field, overwriting any previous record. -/
def setTimer (state : TimerState) (s : Service) : Service :=
  { s with timers := fun j =>
      if j = state.id then
        some { state := state, monitor := [], ended := [], interval := none }
      else s.timers j }

/-- TimerService.getTimer. -/
def getTimer (i : TimerId) (s : Service) : Option TimerData := s.timers i

/-- TimerService.clearInterval: when the record exists and holds an interval
handle, disarm that handle in the host scheduler and null the field. -/
def clearInterval (i : TimerId) (s : Service) : Service × List Event :=
  match s.timers i with
  | none => (s, [])
  | some t =>
    match t.interval with
    | none => (s, [])
    | some h =>
      let s1 := modifyRecord i (fun u => { u with interval := none }) s
      ({ s1 with scheduled := s1.scheduled.filter (fun iv => iv.handle != h) },
        [Event.cancel i h])

/-- The idle display broadcast by stop: the spread of the defaultTimerState
field (the defaultTimer constant) with display set to null. The spread sets
value to the default 3360 whatever the stopped timer is configured with, and
leaves percent absent. -/
def idleDisplay : TimerStateDisplay :=
  { value := defaultTimer.value, display := none, percent := none }

/-- TimerService.stop: for a missing record return of(false); otherwise clear
the interval, push the idle display on the monitor subject, push true on the
ended subject, and return the ended observable. -/
def stop (i : TimerId) (s : Service) : Service × List Event × StopRet :=
  match s.timers i with
  | none => (s, [], StopRet.ofFalse)
  | some _ =>
    let p1 := clearInterval i s
    let p2 := pushMonitor i idleDisplay p1.1
    let p3 := pushEnded i true p2.1
    (p3.1, p1.2 ++ p2.2 ++ p3.2, StopRet.endedOf i)

/-- The truth-value test of TimerService.update on the new display: the
JavaScript !!display?.hours || !!display?.minutes || !!display?.seconds,
where optional chaining on a null display yields a falsy value, as does a
missing or zero unit. -/
def hasDisplayValue (d : TimerStateDisplay) : Bool :=
  ((d.display.map Duration.hours).getD 0 != 0)
    || ((d.display.map Duration.minutes).getD 0 != 0)
    || ((d.display.map Duration.seconds).getD 0 != 0)

/-- TimerService.update, the body of the zone callback: if the new display
has no nonzero hours, minutes or seconds, clear the interval and invoke
stop; otherwise broadcast the display on the monitor subject. The source
computes the truth-value test before its missing-record check; both are pure
so the order is observationally identical. The take(1) subscription of the
stream stop returns changes no state. -/
def update (i : TimerId) (d : TimerStateDisplay) (s : Service) : Service × List Event :=
  match s.timers i with
  | none => (s, [])
  | some _ =>
    if hasDisplayValue d then
      pushMonitor i d s
    else
      let p1 := clearInterval i s
      let p2 := stop i p1.1
      (p2.1, p1.2 ++ p2.2.1)

/-- TimerService.getDuration: end is the date-fns add of the start instant
and the configured seconds, the display is intervalToDuration from now to
end, and remaining is (end minus now) / 1000, a rational number of seconds. -/
def getDuration (startMs nowMs : Int) (state : TimerState) : Duration × ℚ :=
  let endMs := startMs + 1000 * state.value
  (intervalToDuration nowMs endMs, ((endMs - nowMs : Int) : ℚ) / 1000)

/-- The TimerStateDisplay built by TimerService.calculate and handed to
update: the spread of state with the computed display and percent, where
percent is undefined when the configured value is falsy (zero) and otherwise
remaining times 100 over the value. -/
def calcDisplay (state : TimerState) (startMs nowMs : Int) : TimerStateDisplay :=
  let gd := getDuration startMs nowMs state
  { value := state.value
  , display := some gd.1
  , percent := if state.value = 0 then none else some (gd.2 * 100 / (state.value : ℚ)) }

/-- TimerService.calculate: compute the display for the tick and hand it to
update. -/
def calculate (i : TimerId) (state : TimerState) (startMs nowMs : Int) (s : Service) :
    Service × List Event :=
  update i (calcDisplay state startMs nowMs) s

/-- TimerService.countdown at instant nowMs: capture the anchor, clear any
previous interval, run one immediate calculate, then arm a fresh 300 ms
interval whose callback closes over the id, state and anchor. The two Date
constructions of the source (the anchor and the now inside the immediate
calculate) are the same modelled instant. -/
def countdown (i : TimerId) (state : TimerState) (nowMs : Int) (s : Service) :
    Service × List Event :=
  match s.timers i with
  | none => (s, [])
  | some _ =>
    let p1 := clearInterval i s
    let p2 := calculate i state nowMs nowMs p1.1
    let h := p2.1.nextHandle
    let s3 := modifyRecord i (fun t => { t with interval := some h })
      { p2.1 with
          nextHandle := h + 1,
          scheduled := p2.1.scheduled ++
            [{ handle := h, id := i, state := state, anchor := nowMs }] }
    (s3, p1.2 ++ p2.2 ++ [Event.schedule i h])

/-- TimerService.start at instant nowMs: for a missing record return
of(null); otherwise push false on the ended subject, run countdown with the
stored state, and return the monitor observable. -/
def start (i : TimerId) (nowMs : Int) (s : Service) : Service × List Event × StartRet :=
  match s.timers i with
  | none => (s, [], StartRet.ofNull)
  | some t =>
    let p1 := pushEnded i false s
    let p2 := countdown i t.state nowMs p1.1
    (p2.1, p1.2 ++ p2.2, StartRet.monitorOf i)

/-- TimerService.reset: the body is a single return this.start(id). -/
def reset (i : TimerId) (nowMs : Int) (s : Service) : Service × List Event × StartRet :=
  start i nowMs s

/-- The host firing the armed interval with the given handle at instant
nowMs: runs the closed-over calculate when the handle is still armed,
otherwise nothing. -/
def tick (h : Nat) (nowMs : Int) (s : Service) : Service × List Event :=
  match s.scheduled.find? (fun iv => iv.handle == h) with
  | none => (s, [])
  | some iv => calculate iv.id iv.state iv.anchor nowMs s

end TimerService

namespace TimerService

@[simp] theorem modifyRecord_timers_self (i : TimerId) (f : TimerData → TimerData)
    (s : Service) : (modifyRecord i f s).timers i = (s.timers i).map f := by
  simp [modifyRecord]

@[simp] theorem modifyRecord_scheduled (i : TimerId) (f : TimerData → TimerData)
    (s : Service) : (modifyRecord i f s).scheduled = s.scheduled := rfl

/-- Claim C1, the code evaluated at the failing input: registering the
default id with value 100 and starting it at instant 0 broadcasts a first
display whose percent is 100 — the remaining percentage — where the claim
(and the documentation of the percent field) expects the elapsed percentage,
which is 0 at that instant. -/
theorem start_first_push_percent_is_remaining :
    ((start TimerId.default 0 (setTimer ⟨TimerId.default, 100⟩ emptyService)).1.timers
        TimerId.default).map TimerData.monitor =
      some [{ value := 100
            , display := some { days := 0, hours := 0, minutes := 1, seconds := 40 }
            , percent := some 100 }]
      ∧ some (100 : ℚ) ≠ some ((0 / 100) * 100 : ℚ) := by
  constructor
  · norm_num [start, setTimer, countdown, clearInterval, calculate, calcDisplay,
      getDuration, intervalToDuration, update, hasDisplayValue, pushMonitor,
      pushEnded, modifyRecord, emptyService]
  · norm_num

/-- Claim C2 is false as stated: on a freshly registered default timer the
event trace of reset differs from the trace of stop followed by start, since
reset performs none of the stop effects. -/
theorem reset_trace_differs_from_stop_then_start :
    (reset TimerId.default 0 (setTimer ⟨TimerId.default, 60⟩ emptyService)).2.1 ≠
      ((stop TimerId.default (setTimer ⟨TimerId.default, 60⟩ emptyService)).2.1 ++
        (start TimerId.default 0
          (stop TimerId.default (setTimer ⟨TimerId.default, 60⟩ emptyService)).1).2.1) := by
  decide

/-- Claim C2 amended: reset is start on the same id and nothing more — the
resulting state, the event trace and the return value all equal those of a
single start call. -/
theorem reset_eq_start (i : TimerId) (nowMs : Int) (s : Service) :
    reset i nowMs s = start i nowMs s := rfl

/-- Claim C3 is false as stated: stopping the confirm timer configured with
value 10 broadcasts an idle display whose value field is 3360, the
defaultTimer value, not the configured 10. -/
theorem stop_idle_value_not_configured :
    ((stop TimerId.confirm (setTimer ⟨TimerId.confirm, 10⟩ emptyService)).1.timers
        TimerId.confirm).map (fun t => t.monitor.map TimerStateDisplay.value) = some [3360]
      ∧ (3360 : Int) ≠ 10 := by
  constructor
  · decide
  · decide

/-- Claim C3 amended: stopping a registered timer appends the idle display
built from the defaultTimer constant — display null, value 3360, percent
absent, whatever the timer is configured with — to the monitor history, then
appends true to the ended history, clears the interval field, and returns
the ended observable. -/
theorem stop_registered_broadcasts_default_idle (s : Service) (i : TimerId) (t : TimerData)
    (h : s.timers i = some t) :
    (stop i s).1.timers i =
        some { state := t.state, monitor := t.monitor ++ [idleDisplay]
             , ended := t.ended ++ [true], interval := none }
      ∧ (stop i s).2.2 = StopRet.endedOf i
      ∧ idleDisplay = { value := 3360, display := none, percent := none } := by
  refine ⟨?_, ?_, by decide⟩ <;>
    rcases t with ⟨st, mon, en, itv⟩ <;>
    rcases itv with _ | hdl <;>
    simp [stop, clearInterval, pushMonitor, pushEnded, h]

theorem stop_registered_broadcasts_default_idle_witness :
    ((setTimer ⟨TimerId.confirm, 10⟩ emptyService).timers TimerId.confirm =
        some { state := ⟨TimerId.confirm, 10⟩, monitor := [], ended := [], interval := none })
    ∧ ((stop TimerId.confirm (setTimer ⟨TimerId.confirm, 10⟩ emptyService)).1.timers
          TimerId.confirm =
          some { state := ⟨TimerId.confirm, 10⟩, monitor := [idleDisplay]
               , ended := [true], interval := none }
        ∧ (stop TimerId.confirm (setTimer ⟨TimerId.confirm, 10⟩ emptyService)).2.2 =
            StopRet.endedOf TimerId.confirm
        ∧ idleDisplay = { value := 3360, display := none, percent := none }) :=
  ⟨by decide,
    stop_registered_broadcasts_default_idle
      (setTimer ⟨TimerId.confirm, 10⟩ emptyService) TimerId.confirm
      ⟨⟨TimerId.confirm, 10⟩, [], [], none⟩ (by decide)⟩

/-- Claim C4 is false as stated: overwriting the registered default timer
while its countdown is active leaves the old interval armed (nothing is
cancelled), and the next firing of that old interval is still delivered — it
pushes a display through the record now registered for the id. -/
theorem setTimer_leaves_old_poll_armed :
    (setTimer ⟨TimerId.default, 30⟩
        (start TimerId.default 0
          (setTimer ⟨TimerId.default, 60⟩ emptyService)).1).scheduled =
      [{ handle := 0, id := TimerId.default, state := ⟨TimerId.default, 60⟩, anchor := 0 }]
      ∧ ((tick 0 300
            (setTimer ⟨TimerId.default, 30⟩
              (start TimerId.default 0
                (setTimer ⟨TimerId.default, 60⟩ emptyService)).1)).1.timers
          TimerId.default).map (fun t => t.monitor.length) = some 1 := by
  constructor
  · decide
  · decide

/-- Claim C4 amended: setTimer overwrites the record for the id with a fresh
one carrying empty subjects and no interval handle, and leaves the host
scheduler untouched — it cancels no active poll. -/
theorem setTimer_overwrites_without_cancel (state : TimerState) (s : Service) :
    (setTimer state s).scheduled = s.scheduled
      ∧ (setTimer state s).timers state.id =
          some { state := state, monitor := [], ended := [], interval := none } := by
  constructor
  · rfl
  · simp [setTimer]

/-- Claim C5: for a registered timer, a tick whose display has hours, minutes
and seconds all absent or zero performs the expiry transition — the interval
is cleared, the handle disarmed, and stop runs, so only the idle display and
a true on the ended subject are pushed, not the computed display; a tick
with any nonzero unit broadcasts exactly the computed display. -/
theorem update_stops_on_zero_breakdown (s : Service) (i : TimerId) (t : TimerData)
    (d : TimerStateDisplay) (h : s.timers i = some t) :
    (hasDisplayValue d = false →
        (update i d s).1.timers i =
          some { state := t.state, monitor := t.monitor ++ [idleDisplay]
               , ended := t.ended ++ [true], interval := none }
        ∧ (update i d s).1.scheduled =
            (match t.interval with
              | some hdl => s.scheduled.filter (fun iv => iv.handle != hdl)
              | none => s.scheduled))
    ∧ (hasDisplayValue d = true →
        (update i d s).1.timers i = some { t with monitor := t.monitor ++ [d] }
        ∧ (update i d s).2 = [Event.monitorPush i d]) := by
  constructor
  · intro hv
    rcases t with ⟨st, mon, en, itv⟩
    rcases itv with _ | hdl <;>
      simp [update, stop, clearInterval, pushMonitor, pushEnded, h, hv]
  · intro hv
    simp [update, pushMonitor, h, hv]

theorem update_stops_on_zero_breakdown_witness :
    ((setTimer ⟨TimerId.default, 60⟩ emptyService).timers TimerId.default =
        some { state := ⟨TimerId.default, 60⟩, monitor := [], ended := [], interval := none })
    ∧ ((hasDisplayValue { value := 60, display := none, percent := none } = false →
          (update TimerId.default { value := 60, display := none, percent := none }
              (setTimer ⟨TimerId.default, 60⟩ emptyService)).1.timers TimerId.default =
            some { state := ⟨TimerId.default, 60⟩, monitor := [idleDisplay]
                 , ended := [true], interval := none }
          ∧ (update TimerId.default { value := 60, display := none, percent := none }
              (setTimer ⟨TimerId.default, 60⟩ emptyService)).1.scheduled = [])
       ∧ (hasDisplayValue { value := 60, display := none, percent := none } = true →
          (update TimerId.default { value := 60, display := none, percent := none }
              (setTimer ⟨TimerId.default, 60⟩ emptyService)).1.timers TimerId.default =
            some { state := ⟨TimerId.default, 60⟩
                 , monitor := [{ value := 60, display := none, percent := none }]
                 , ended := [], interval := none }
          ∧ (update TimerId.default { value := 60, display := none, percent := none }
              (setTimer ⟨TimerId.default, 60⟩ emptyService)).2 =
            [Event.monitorPush TimerId.default
              { value := 60, display := none, percent := none }])) :=
  ⟨by decide,
    update_stops_on_zero_breakdown
      (setTimer ⟨TimerId.default, 60⟩ emptyService) TimerId.default
      ⟨⟨TimerId.default, 60⟩, [], [], none⟩
      { value := 60, display := none, percent := none } (by decide)⟩

/-- Claim C6: starting an id with no registered record throws nothing,
changes no state, produces no events, and returns the of(null) observable —
an already completed stream whose emissions contain no TimerStateDisplay. -/
theorem start_unknown_id_safe (s : Service) (i : TimerId) (nowMs : Int)
    (h : s.timers i = none) :
    start i nowMs s = (s, [], StartRet.ofNull)
      ∧ (startEmissions s StartRet.ofNull).filterMap (fun x => x) = []
      ∧ startDone StartRet.ofNull = true := by
  refine ⟨?_, rfl, rfl⟩
  simp [start, h]

theorem start_unknown_id_safe_witness :
    emptyService.timers TimerId.default = none
    ∧ (start TimerId.default 0 emptyService = (emptyService, [], StartRet.ofNull)
        ∧ (startEmissions emptyService StartRet.ofNull).filterMap (fun x => x) = []
        ∧ startDone StartRet.ofNull = true) :=
  ⟨rfl, start_unknown_id_safe emptyService TimerId.default 0 rfl⟩

/-- Claim C7: stopping an id with no registered record returns the of(false)
observable — a completed stream emitting exactly the single value false —
and leaves the id-to-record map, and the whole service state, unchanged. -/
theorem stop_unknown_id_emits_false (s : Service) (i : TimerId)
    (h : s.timers i = none) :
    stop i s = (s, [], StopRet.ofFalse)
      ∧ stopEmissions s StopRet.ofFalse = [false]
      ∧ stopDone StopRet.ofFalse = true := by
  refine ⟨?_, rfl, rfl⟩
  simp [stop, h]

theorem stop_unknown_id_emits_false_witness :
    emptyService.timers TimerId.confirm = none
    ∧ (stop TimerId.confirm emptyService = (emptyService, [], StopRet.ofFalse)
        ∧ stopEmissions emptyService StopRet.ofFalse = [false]
        ∧ stopDone StopRet.ofFalse = true) :=
  ⟨rfl, stop_unknown_id_emits_false emptyService TimerId.confirm rfl⟩

/-- Claim C8: the display computed on every tick carries an undefined percent
exactly when the configured value is zero — the division is guarded and
never performed — and otherwise the percent is the remaining seconds, in
closed form (start + 1000 value - now) / 1000, times 100 over the value. -/
theorem calcDisplay_percent_guard (state : TimerState) (startMs nowMs : Int) :
    (calcDisplay state startMs nowMs).percent =
      if state.value = 0 then none
      else some ((((startMs + 1000 * state.value - nowMs : Int) : ℚ) / 1000) * 100
        / (state.value : ℚ)) := rfl

/-- Claim C9: getDuration is a pure function of its three inputs, returning
the structured decomposition of the interval from now to start plus the
configured seconds, and the remaining seconds (start + 1000 value - now) /
1000, a rational that may be fractional or negative; no error condition. -/
theorem getDuration_closed_form (startMs nowMs : Int) (state : TimerState) :
    getDuration startMs nowMs state =
      (intervalToDuration nowMs (startMs + 1000 * state.value),
        ((startMs + 1000 * state.value - nowMs : Int) : ℚ) / 1000) := rfl

/-- Claim C10: the expiry test of a tick looks only at hours, minutes and
seconds; whenever those three decompose to zero the timer is stopped — the
idle display and a true on the ended subject are pushed and the interval
field is cleared — no matter what the days component of the breakdown is. -/
theorem calculate_expiry_ignores_days (s : Service) (i : TimerId) (t : TimerData)
    (state : TimerState) (anchorMs nowMs : Int) (h : s.timers i = some t)
    (hh : (intervalToDuration nowMs (anchorMs + 1000 * state.value)).hours = 0)
    (hm : (intervalToDuration nowMs (anchorMs + 1000 * state.value)).minutes = 0)
    (hs : (intervalToDuration nowMs (anchorMs + 1000 * state.value)).seconds = 0) :
    (calculate i state anchorMs nowMs s).1.timers i =
      some { state := t.state, monitor := t.monitor ++ [idleDisplay]
           , ended := t.ended ++ [true], interval := none } := by
  have hv : hasDisplayValue (calcDisplay state anchorMs nowMs) = false := by
    simp [hasDisplayValue, calcDisplay, getDuration, hh, hm, hs]
  rcases t with ⟨st, mon, en, itv⟩
  rcases itv with _ | hdl <;>
    simp [calculate, update, stop, clearInterval, pushMonitor, pushEnded, h, hv]

theorem calculate_expiry_ignores_days_witness :
    (intervalToDuration 0 (0 + 1000 * 86400)).days = 1
    ∧ (intervalToDuration 0 (0 + 1000 * 86400)).hours = 0
    ∧ (intervalToDuration 0 (0 + 1000 * 86400)).minutes = 0
    ∧ (intervalToDuration 0 (0 + 1000 * 86400)).seconds = 0
    ∧ (setTimer ⟨TimerId.default, 86400⟩ emptyService).timers TimerId.default =
        some { state := ⟨TimerId.default, 86400⟩, monitor := [], ended := [], interval := none }
    ∧ (calculate TimerId.default ⟨TimerId.default, 86400⟩ 0 0
          (setTimer ⟨TimerId.default, 86400⟩ emptyService)).1.timers TimerId.default =
        some { state := ⟨TimerId.default, 86400⟩, monitor := [idleDisplay]
             , ended := [true], interval := none } :=
  ⟨by decide, by decide, by decide, by decide, by decide,
    calculate_expiry_ignores_days
      (setTimer ⟨TimerId.default, 86400⟩ emptyService) TimerId.default
      ⟨⟨TimerId.default, 86400⟩, [], [], none⟩ ⟨TimerId.default, 86400⟩ 0 0
      (by decide) (by decide) (by decide) (by decide)⟩

end TimerService
